import Mathlib

/-!
Verification of the `Sdc::Options` configuration class of OpenSubdiv
(`src/opensubdiv/sdc/options.h`).

The class packs four enumerated settings into narrow unsigned bitfields:

  unsigned int _vtxBoundInterp  : 2,
               _fvarLinInterp   : 3,
               _creasingMethod  : 2,
               _triangleSub     : 2;

We embed each bitfield as a `Fin (2^w)` (a 2-bit unsigned field can hold
exactly the values 0..3, a 3-bit field 0..7); assignment to a bitfield
truncates the assigned value modulo `2^w`, which the field-level setters
below reproduce.  C++ enum values are their numeric representations, so
getters are modelled at the representation level (returning the stored
`Nat`); `ofNat?` recovers the declared enum member for an in-domain value.
-/

namespace Sdc

/-- The `VtxBoundaryInterpolation` enum: implicit C++ enumerator values
starting from `VTX_BOUNDARY_NONE = 0`. -/
inductive VtxBoundaryInterpolation where
  | VTX_BOUNDARY_NONE
  | VTX_BOUNDARY_EDGE_ONLY
  | VTX_BOUNDARY_EDGE_AND_CORNER
deriving DecidableEq, Repr

/-- Numeric value of each `VtxBoundaryInterpolation` enumerator, as fixed by
the C++ declaration (first enumerator `= 0`, the rest implicit increments). -/
def VtxBoundaryInterpolation.toNat : VtxBoundaryInterpolation → Nat
  | .VTX_BOUNDARY_NONE => 0
  | .VTX_BOUNDARY_EDGE_ONLY => 1
  | .VTX_BOUNDARY_EDGE_AND_CORNER => 2

/-- Partial decoding of a numeric value into a declared enumerator. -/
def VtxBoundaryInterpolation.ofNat? : Nat → Option VtxBoundaryInterpolation
  | 0 => some .VTX_BOUNDARY_NONE
  | 1 => some .VTX_BOUNDARY_EDGE_ONLY
  | 2 => some .VTX_BOUNDARY_EDGE_AND_CORNER
  | _ => none

/-- The `FVarLinearInterpolation` enum. -/
inductive FVarLinearInterpolation where
  | FVAR_LINEAR_NONE
  | FVAR_LINEAR_CORNERS_ONLY
  | FVAR_LINEAR_CORNERS_PLUS1
  | FVAR_LINEAR_CORNERS_PLUS2
  | FVAR_LINEAR_BOUNDARIES
  | FVAR_LINEAR_ALL
deriving DecidableEq, Repr

/-- Numeric value of each `FVarLinearInterpolation` enumerator. -/
def FVarLinearInterpolation.toNat : FVarLinearInterpolation → Nat
  | .FVAR_LINEAR_NONE => 0
  | .FVAR_LINEAR_CORNERS_ONLY => 1
  | .FVAR_LINEAR_CORNERS_PLUS1 => 2
  | .FVAR_LINEAR_CORNERS_PLUS2 => 3
  | .FVAR_LINEAR_BOUNDARIES => 4
  | .FVAR_LINEAR_ALL => 5

/-- Partial decoding of a numeric value into a declared enumerator. -/
def FVarLinearInterpolation.ofNat? : Nat → Option FVarLinearInterpolation
  | 0 => some .FVAR_LINEAR_NONE
  | 1 => some .FVAR_LINEAR_CORNERS_ONLY
  | 2 => some .FVAR_LINEAR_CORNERS_PLUS1
  | 3 => some .FVAR_LINEAR_CORNERS_PLUS2
  | 4 => some .FVAR_LINEAR_BOUNDARIES
  | 5 => some .FVAR_LINEAR_ALL
  | _ => none

/-- The `CreasingMethod` enum. -/
inductive CreasingMethod where
  | CREASE_UNIFORM
  | CREASE_CHAIKIN
deriving DecidableEq, Repr

/-- Numeric value of each `CreasingMethod` enumerator. -/
def CreasingMethod.toNat : CreasingMethod → Nat
  | .CREASE_UNIFORM => 0
  | .CREASE_CHAIKIN => 1

/-- Partial decoding of a numeric value into a declared enumerator. -/
def CreasingMethod.ofNat? : Nat → Option CreasingMethod
  | 0 => some .CREASE_UNIFORM
  | 1 => some .CREASE_CHAIKIN
  | _ => none

/-- The `TriangleSubdivision` enum. -/
inductive TriangleSubdivision where
  | TRI_SUB_CATMARK
  | TRI_SUB_SMOOTH
deriving DecidableEq, Repr

/-- Numeric value of each `TriangleSubdivision` enumerator. -/
def TriangleSubdivision.toNat : TriangleSubdivision → Nat
  | .TRI_SUB_CATMARK => 0
  | .TRI_SUB_SMOOTH => 1

/-- Partial decoding of a numeric value into a declared enumerator. -/
def TriangleSubdivision.ofNat? : Nat → Option TriangleSubdivision
  | 0 => some .TRI_SUB_CATMARK
  | 1 => some .TRI_SUB_SMOOTH
  | _ => none

/-- The `Options` class: four unsigned bitfields of widths 2, 3, 2 and 2.
A `w`-bit unsigned field holds exactly the values `0 .. 2^w - 1`, embedded
here as `Fin (2^w)`. -/
structure Options where
  _vtxBoundInterp : Fin 4
  _fvarLinInterp : Fin 8
  _creasingMethod : Fin 4
  _triangleSub : Fin 4
deriving DecidableEq, Repr

/-- Assignment `_vtxBoundInterp = n`: a C++ bitfield assignment stores the
value truncated modulo `2^width`. -/
def Options.setVtxBoundInterpField (o : Options) (n : Nat) : Options :=
  { o with _vtxBoundInterp := ⟨n % 4, Nat.mod_lt n (by decide)⟩ }

/-- Assignment `_fvarLinInterp = n` (3-bit field). -/
def Options.setFVarLinInterpField (o : Options) (n : Nat) : Options :=
  { o with _fvarLinInterp := ⟨n % 8, Nat.mod_lt n (by decide)⟩ }

/-- Assignment `_creasingMethod = n` (2-bit field). -/
def Options.setCreasingMethodField (o : Options) (n : Nat) : Options :=
  { o with _creasingMethod := ⟨n % 4, Nat.mod_lt n (by decide)⟩ }

/-- Assignment `_triangleSub = n` (2-bit field). -/
def Options.setTriangleSubField (o : Options) (n : Nat) : Options :=
  { o with _triangleSub := ⟨n % 4, Nat.mod_lt n (by decide)⟩ }

/-- The default constructor
`Options() : _vtxBoundInterp(VTX_BOUNDARY_NONE), _fvarLinInterp(FVAR_LINEAR_ALL),
_creasingMethod(CREASE_UNIFORM), _triangleSub(TRI_SUB_CATMARK)`. -/
def Options.init : Options :=
  { _vtxBoundInterp := ⟨VtxBoundaryInterpolation.VTX_BOUNDARY_NONE.toNat % 4, by decide⟩
    _fvarLinInterp := ⟨FVarLinearInterpolation.FVAR_LINEAR_ALL.toNat % 8, by decide⟩
    _creasingMethod := ⟨CreasingMethod.CREASE_UNIFORM.toNat % 4, by decide⟩
    _triangleSub := ⟨TriangleSubdivision.TRI_SUB_CATMARK.toNat % 4, by decide⟩ }

/-- `GetVtxBoundaryInterpolation() const { return (VtxBoundaryInterpolation) _vtxBoundInterp; }`:
the cast returns the stored numeric value reinterpreted as the enum type, so it
is the identity on the representation. -/
def Options.GetVtxBoundaryInterpolation (o : Options) : Nat :=
  o._vtxBoundInterp.val

/-- `SetVtxBoundaryInterpolation(VtxBoundaryInterpolation b) { _vtxBoundInterp = b; }` -/
def Options.SetVtxBoundaryInterpolation (o : Options) (b : VtxBoundaryInterpolation) : Options :=
  o.setVtxBoundInterpField b.toNat

/-- `GetFVarLinearInterpolation() const { return (FVarLinearInterpolation) _fvarLinInterp; }` -/
def Options.GetFVarLinearInterpolation (o : Options) : Nat :=
  o._fvarLinInterp.val

/-- `SetFVarLinearInterpolation(FVarLinearInterpolation b) { _fvarLinInterp = b; }` -/
def Options.SetFVarLinearInterpolation (o : Options) (b : FVarLinearInterpolation) : Options :=
  o.setFVarLinInterpField b.toNat

/-- `GetCreasingMethod() const { return (CreasingMethod) _creasingMethod; }` -/
def Options.GetCreasingMethod (o : Options) : Nat :=
  o._creasingMethod.val

/-- `SetCreasingMethod(CreasingMethod c) { _creasingMethod = c; }` -/
def Options.SetCreasingMethod (o : Options) (c : CreasingMethod) : Options :=
  o.setCreasingMethodField c.toNat

/-- `GetTriangleSubdivision() const { return (TriangleSubdivision) _triangleSub; }` -/
def Options.GetTriangleSubdivision (o : Options) : Nat :=
  o._triangleSub.val

/-- `SetTriangleSubdivision(TriangleSubdivision t) { _triangleSub = t; }` -/
def Options.SetTriangleSubdivision (o : Options) (t : TriangleSubdivision) : Options :=
  o.setTriangleSubField t.toNat

/-- C1: a default-constructed `Options` instance has exactly
vertex boundary = `VTX_BOUNDARY_NONE`, face-varying = `FVAR_LINEAR_ALL`,
creasing = `CREASE_UNIFORM`, triangle subdivision = `TRI_SUB_CATMARK`. -/
theorem default_options_exact_fields :
    Options.init.GetVtxBoundaryInterpolation
        = VtxBoundaryInterpolation.VTX_BOUNDARY_NONE.toNat ∧
    Options.init.GetFVarLinearInterpolation
        = FVarLinearInterpolation.FVAR_LINEAR_ALL.toNat ∧
    Options.init.GetCreasingMethod
        = CreasingMethod.CREASE_UNIFORM.toNat ∧
    Options.init.GetTriangleSubdivision
        = TriangleSubdivision.TRI_SUB_CATMARK.toNat ∧
    VtxBoundaryInterpolation.ofNat? Options.init.GetVtxBoundaryInterpolation
        = some .VTX_BOUNDARY_NONE ∧
    FVarLinearInterpolation.ofNat? Options.init.GetFVarLinearInterpolation
        = some .FVAR_LINEAR_ALL ∧
    CreasingMethod.ofNat? Options.init.GetCreasingMethod
        = some .CREASE_UNIFORM ∧
    TriangleSubdivision.ofNat? Options.init.GetTriangleSubdivision
        = some .TRI_SUB_CATMARK := by
  decide

/-- C2: for each of the four fields and every declared enum member `v`,
setting the field to `v` on any instance and reading it back returns
exactly `v` (numerically `v.toNat`, and decoding recovers the member). -/
theorem set_get_round_trip :
    (∀ (o : Options) (v : VtxBoundaryInterpolation),
        (o.SetVtxBoundaryInterpolation v).GetVtxBoundaryInterpolation = v.toNat ∧
        VtxBoundaryInterpolation.ofNat?
          ((o.SetVtxBoundaryInterpolation v).GetVtxBoundaryInterpolation) = some v) ∧
    (∀ (o : Options) (v : FVarLinearInterpolation),
        (o.SetFVarLinearInterpolation v).GetFVarLinearInterpolation = v.toNat ∧
        FVarLinearInterpolation.ofNat?
          ((o.SetFVarLinearInterpolation v).GetFVarLinearInterpolation) = some v) ∧
    (∀ (o : Options) (v : CreasingMethod),
        (o.SetCreasingMethod v).GetCreasingMethod = v.toNat ∧
        CreasingMethod.ofNat? ((o.SetCreasingMethod v).GetCreasingMethod) = some v) ∧
    (∀ (o : Options) (v : TriangleSubdivision),
        (o.SetTriangleSubdivision v).GetTriangleSubdivision = v.toNat ∧
        TriangleSubdivision.ofNat?
          ((o.SetTriangleSubdivision v).GetTriangleSubdivision) = some v) := by
  refine ⟨fun o1 v1 => ?_, fun o2 v2 => ?_, fun o3 v3 => ?_, fun o4 v4 => ?_⟩
  · cases v1 <;> exact ⟨rfl, rfl⟩
  · cases v2 <;> exact ⟨rfl, rfl⟩
  · cases v3 <;> exact ⟨rfl, rfl⟩
  · cases v4 <;> exact ⟨rfl, rfl⟩

/-- C3: calling the setter of any one field leaves the stored values of the
other three fields unchanged, on every instance and for every enum member. -/
theorem set_preserves_other_fields :
    (∀ (o : Options) (v : VtxBoundaryInterpolation),
        (o.SetVtxBoundaryInterpolation v).GetFVarLinearInterpolation
            = o.GetFVarLinearInterpolation ∧
        (o.SetVtxBoundaryInterpolation v).GetCreasingMethod = o.GetCreasingMethod ∧
        (o.SetVtxBoundaryInterpolation v).GetTriangleSubdivision
            = o.GetTriangleSubdivision) ∧
    (∀ (o : Options) (v : FVarLinearInterpolation),
        (o.SetFVarLinearInterpolation v).GetVtxBoundaryInterpolation
            = o.GetVtxBoundaryInterpolation ∧
        (o.SetFVarLinearInterpolation v).GetCreasingMethod = o.GetCreasingMethod ∧
        (o.SetFVarLinearInterpolation v).GetTriangleSubdivision
            = o.GetTriangleSubdivision) ∧
    (∀ (o : Options) (v : CreasingMethod),
        (o.SetCreasingMethod v).GetVtxBoundaryInterpolation
            = o.GetVtxBoundaryInterpolation ∧
        (o.SetCreasingMethod v).GetFVarLinearInterpolation
            = o.GetFVarLinearInterpolation ∧
        (o.SetCreasingMethod v).GetTriangleSubdivision = o.GetTriangleSubdivision) ∧
    (∀ (o : Options) (v : TriangleSubdivision),
        (o.SetTriangleSubdivision v).GetVtxBoundaryInterpolation
            = o.GetVtxBoundaryInterpolation ∧
        (o.SetTriangleSubdivision v).GetFVarLinearInterpolation
            = o.GetFVarLinearInterpolation ∧
        (o.SetTriangleSubdivision v).GetCreasingMethod = o.GetCreasingMethod) :=
  ⟨fun _o1 _v1 => ⟨rfl, rfl, rfl⟩, fun _o2 _v2 => ⟨rfl, rfl, rfl⟩,
   fun _o3 _v3 => ⟨rfl, rfl, rfl⟩, fun _o4 _v4 => ⟨rfl, rfl, rfl⟩⟩

/-- C4: evaluating the code at the failing input.  Assigning the numeric
value 4 (outside the declared domain 0..2) to the vertex-boundary field of
a default instance raises no error: the 2-bit bitfield silently truncates
4 modulo 4 to 0, which reads back as the valid-looking member
`VTX_BOUNDARY_NONE`.  The setter's result is a well-formed `Options` value,
so no `InvalidOptionValue` error is (or can be) surfaced. -/
theorem set_out_of_range_silently_wraps :
    (Options.init.setVtxBoundInterpField 4).GetVtxBoundaryInterpolation
        = VtxBoundaryInterpolation.VTX_BOUNDARY_NONE.toNat ∧
    VtxBoundaryInterpolation.ofNat?
        ((Options.init.setVtxBoundInterpField 4).GetVtxBoundaryInterpolation)
        = some .VTX_BOUNDARY_NONE ∧
    (Options.init.setFVarLinInterpField 8).GetFVarLinearInterpolation
        = FVarLinearInterpolation.FVAR_LINEAR_NONE.toNat := by
  decide

/-- The set of `Options` values reachable from the default constructor by
sequences of calls of the four declared setters with declared enum members. -/
inductive Reachable : Options → Prop where
  | init : Reachable Options.init
  | setVtx {o : Options} (b : VtxBoundaryInterpolation) :
      Reachable o → Reachable (o.SetVtxBoundaryInterpolation b)
  | setFVar {o : Options} (b : FVarLinearInterpolation) :
      Reachable o → Reachable (o.SetFVarLinearInterpolation b)
  | setCrease {o : Options} (c : CreasingMethod) :
      Reachable o → Reachable (o.SetCreasingMethod c)
  | setTri {o : Options} (t : TriangleSubdivision) :
      Reachable o → Reachable (o.SetTriangleSubdivision t)

/-- C5: every instance reachable by default construction followed by any
sequence of setter calls with declared enum members keeps each stored field
inside its declared enum domain: vertex boundary in 0..2, face-varying in
0..5, creasing in 0..1, triangle subdivision in 0..1. -/
theorem reachable_fields_in_domain (o : Options) (h : Reachable o) :
    o.GetVtxBoundaryInterpolation ∈ [0, 1, 2] ∧
    o.GetFVarLinearInterpolation ∈ [0, 1, 2, 3, 4, 5] ∧
    o.GetCreasingMethod ∈ [0, 1] ∧
    o.GetTriangleSubdivision ∈ [0, 1] := by
  induction h with
  | init => decide
  | setVtx b _ ih =>
      exact ⟨by cases b <;> simp [Options.SetVtxBoundaryInterpolation,
          Options.setVtxBoundInterpField, Options.GetVtxBoundaryInterpolation,
          VtxBoundaryInterpolation.toNat],
        ih.2.1, ih.2.2.1, ih.2.2.2⟩
  | setFVar b _ ih =>
      exact ⟨ih.1, by cases b <;> simp [Options.SetFVarLinearInterpolation,
          Options.setFVarLinInterpField, Options.GetFVarLinearInterpolation,
          FVarLinearInterpolation.toNat] <;> decide,
        ih.2.2.1, ih.2.2.2⟩
  | setCrease c _ ih =>
      exact ⟨ih.1, ih.2.1, by cases c <;> simp [Options.SetCreasingMethod,
          Options.setCreasingMethodField, Options.GetCreasingMethod,
          CreasingMethod.toNat],
        ih.2.2.2⟩
  | setTri t _ ih =>
      exact ⟨ih.1, ih.2.1, ih.2.2.1,
        by cases t <;> simp [Options.SetTriangleSubdivision,
          Options.setTriangleSubField, Options.GetTriangleSubdivision,
          TriangleSubdivision.toNat]⟩

/-- Witness for C5: the invariant holds at a concrete reachable state,
obtained by two setter calls after default construction. -/
theorem reachable_fields_in_domain_witness :
    ((Options.init.SetVtxBoundaryInterpolation
        .VTX_BOUNDARY_EDGE_AND_CORNER).SetFVarLinearInterpolation
        .FVAR_LINEAR_CORNERS_ONLY).GetVtxBoundaryInterpolation ∈ [0, 1, 2] :=
  (reachable_fields_in_domain _
    (Reachable.setFVar _ (Reachable.setVtx _ Reachable.init))).1

/-- C6: equality of `Options` values holds iff all four fields are equal;
two default-constructed instances compare equal; and changing any single
field of an instance to a value different from the one stored breaks
equality with the unmodified instance.  (Setting a field to the value it
already holds is not a mutation and keeps the instances equal.) -/
theorem options_equality_iff_fields :
    (∀ o1 o2 : Options, o1 = o2 ↔
        (o1.GetVtxBoundaryInterpolation = o2.GetVtxBoundaryInterpolation ∧
         o1.GetFVarLinearInterpolation = o2.GetFVarLinearInterpolation ∧
         o1.GetCreasingMethod = o2.GetCreasingMethod ∧
         o1.GetTriangleSubdivision = o2.GetTriangleSubdivision)) ∧
    (Options.init = Options.init) ∧
    (∀ (o : Options) (v : VtxBoundaryInterpolation),
        v.toNat ≠ o.GetVtxBoundaryInterpolation →
        o.SetVtxBoundaryInterpolation v ≠ o) ∧
    (∀ (o : Options) (v : FVarLinearInterpolation),
        v.toNat ≠ o.GetFVarLinearInterpolation →
        o.SetFVarLinearInterpolation v ≠ o) ∧
    (∀ (o : Options) (v : CreasingMethod),
        v.toNat ≠ o.GetCreasingMethod → o.SetCreasingMethod v ≠ o) ∧
    (∀ (o : Options) (v : TriangleSubdivision),
        v.toNat ≠ o.GetTriangleSubdivision → o.SetTriangleSubdivision v ≠ o) := by
  refine ⟨fun o1 o2 => ?_, rfl, fun oa va hva hea => ?_, fun ob vb hvb heb => ?_,
          fun oc vc hvc hec => ?_, fun od vd hvd hed => ?_⟩
  · constructor
    · rintro rfl; exact ⟨rfl, rfl, rfl, rfl⟩
    · obtain ⟨a1, b1, c1, d1⟩ := o1
      obtain ⟨a2, b2, c2, d2⟩ := o2
      rintro ⟨h1, h2, h3, h4⟩
      simp only [Options.GetVtxBoundaryInterpolation, Options.GetFVarLinearInterpolation,
        Options.GetCreasingMethod, Options.GetTriangleSubdivision] at h1 h2 h3 h4
      simp only [Options.mk.injEq]
      exact ⟨Fin.ext h1, Fin.ext h2, Fin.ext h3, Fin.ext h4⟩
  · exact hva (by
      have := congrArg Options.GetVtxBoundaryInterpolation hea
      cases va <;> simpa [Options.SetVtxBoundaryInterpolation,
        Options.setVtxBoundInterpField, Options.GetVtxBoundaryInterpolation,
        VtxBoundaryInterpolation.toNat] using this)
  · exact hvb (by
      have := congrArg Options.GetFVarLinearInterpolation heb
      cases vb <;> simpa [Options.SetFVarLinearInterpolation,
        Options.setFVarLinInterpField, Options.GetFVarLinearInterpolation,
        FVarLinearInterpolation.toNat] using this)
  · exact hvc (by
      have := congrArg Options.GetCreasingMethod hec
      cases vc <;> simpa [Options.SetCreasingMethod,
        Options.setCreasingMethodField, Options.GetCreasingMethod,
        CreasingMethod.toNat] using this)
  · exact hvd (by
      have := congrArg Options.GetTriangleSubdivision hed
      cases vd <;> simpa [Options.SetTriangleSubdivision,
        Options.setTriangleSubField, Options.GetTriangleSubdivision,
        TriangleSubdivision.toNat] using this)

/-- Witness for C6: mutating the vertex-boundary field of one of two
default-constructed instances breaks equality with the other. -/
theorem options_equality_iff_fields_witness :
    Options.init.SetVtxBoundaryInterpolation .VTX_BOUNDARY_EDGE_ONLY
        ≠ Options.init :=
  options_equality_iff_fields.2.2.1 Options.init .VTX_BOUNDARY_EDGE_ONLY
    (by decide)

/-- The implicit C++ copy constructor: a memberwise copy of the four
bitfields (the class holds no pointers or references, so a copy shares no
storage with the original). -/
def Options.copy (o : Options) : Options :=
  { _vtxBoundInterp := o._vtxBoundInterp
    _fvarLinInterp := o._fvarLinInterp
    _creasingMethod := o._creasingMethod
    _triangleSub := o._triangleSub }

/-- The scenario "copy `o`, then mutate the copy's vertex-boundary field":
returns the original and the mutated copy. -/
def copyThenSetVtx (o : Options) (v : VtxBoundaryInterpolation) :
    Options × Options :=
  (o, (o.copy).SetVtxBoundaryInterpolation v)

/-- The scenario "copy `o`, then mutate the copy's face-varying field". -/
def copyThenSetFVar (o : Options) (v : FVarLinearInterpolation) :
    Options × Options :=
  (o, (o.copy).SetFVarLinearInterpolation v)

/-- The scenario "copy `o`, then mutate the copy's creasing field". -/
def copyThenSetCrease (o : Options) (v : CreasingMethod) :
    Options × Options :=
  (o, (o.copy).SetCreasingMethod v)

/-- The scenario "copy `o`, then mutate the copy's triangle field". -/
def copyThenSetTri (o : Options) (v : TriangleSubdivision) :
    Options × Options :=
  (o, (o.copy).SetTriangleSubdivision v)

/-- C7: after copying an instance and mutating any of the copy's fields via
its setter, the original instance still holds all four of its field values
(a copy is memberwise with no shared storage, so mutating it never writes
through to the original). -/
theorem copy_then_mutate_leaves_original :
    (∀ (o : Options) (v : VtxBoundaryInterpolation),
        (copyThenSetVtx o v).1.GetVtxBoundaryInterpolation
            = o.GetVtxBoundaryInterpolation ∧
        (copyThenSetVtx o v).1.GetFVarLinearInterpolation
            = o.GetFVarLinearInterpolation ∧
        (copyThenSetVtx o v).1.GetCreasingMethod = o.GetCreasingMethod ∧
        (copyThenSetVtx o v).1.GetTriangleSubdivision
            = o.GetTriangleSubdivision) ∧
    (∀ (o : Options) (v : FVarLinearInterpolation),
        (copyThenSetFVar o v).1 = o) ∧
    (∀ (o : Options) (v : CreasingMethod),
        (copyThenSetCrease o v).1 = o) ∧
    (∀ (o : Options) (v : TriangleSubdivision),
        (copyThenSetTri o v).1 = o) :=
  ⟨fun _o1 _v1 => ⟨rfl, rfl, rfl, rfl⟩, fun _o2 _v2 => rfl, fun _o3 _v3 => rfl,
   fun _o4 _v4 => rfl⟩

/-- A getter invocation modelled as a `const` method call: it yields the
returned value together with the (necessarily unmodified) object state. -/
def Options.getVtxBoundaryInterpolationCall (o : Options) : Nat × Options :=
  (o.GetVtxBoundaryInterpolation, o)

/-- `GetFVarLinearInterpolation` as a call returning value and state. -/
def Options.getFVarLinearInterpolationCall (o : Options) : Nat × Options :=
  (o.GetFVarLinearInterpolation, o)

/-- `GetCreasingMethod` as a call returning value and state. -/
def Options.getCreasingMethodCall (o : Options) : Nat × Options :=
  (o.GetCreasingMethod, o)

/-- `GetTriangleSubdivision` as a call returning value and state. -/
def Options.getTriangleSubdivisionCall (o : Options) : Nat × Options :=
  (o.GetTriangleSubdivision, o)

/-- C8: each of the four getters returns exactly the stored value of its
field and leaves every field of the instance unchanged (it is a total
`const` member function with no side effects). -/
theorem getters_pure_and_exact :
    ∀ o : Options,
      (o.getVtxBoundaryInterpolationCall.1 = o._vtxBoundInterp.val ∧
       o.getVtxBoundaryInterpolationCall.2 = o) ∧
      (o.getFVarLinearInterpolationCall.1 = o._fvarLinInterp.val ∧
       o.getFVarLinearInterpolationCall.2 = o) ∧
      (o.getCreasingMethodCall.1 = o._creasingMethod.val ∧
       o.getCreasingMethodCall.2 = o) ∧
      (o.getTriangleSubdivisionCall.1 = o._triangleSub.val ∧
       o.getTriangleSubdivisionCall.2 = o) :=
  fun _o => ⟨⟨rfl, rfl⟩, ⟨rfl, rfl⟩, ⟨rfl, rfl⟩, ⟨rfl, rfl⟩⟩

/-- The `VtxBoundaryInterpolation` enumerators in declaration order. -/
def VtxBoundaryInterpolation.declOrder : List VtxBoundaryInterpolation :=
  [.VTX_BOUNDARY_NONE, .VTX_BOUNDARY_EDGE_ONLY, .VTX_BOUNDARY_EDGE_AND_CORNER]

/-- The `FVarLinearInterpolation` enumerators in declaration order. -/
def FVarLinearInterpolation.declOrder : List FVarLinearInterpolation :=
  [.FVAR_LINEAR_NONE, .FVAR_LINEAR_CORNERS_ONLY, .FVAR_LINEAR_CORNERS_PLUS1,
   .FVAR_LINEAR_CORNERS_PLUS2, .FVAR_LINEAR_BOUNDARIES, .FVAR_LINEAR_ALL]

/-- The `CreasingMethod` enumerators in declaration order. -/
def CreasingMethod.declOrder : List CreasingMethod :=
  [.CREASE_UNIFORM, .CREASE_CHAIKIN]

/-- The `TriangleSubdivision` enumerators in declaration order. -/
def TriangleSubdivision.declOrder : List TriangleSubdivision :=
  [.TRI_SUB_CATMARK, .TRI_SUB_SMOOTH]

/-- C9: every enumerator's numeric representation equals its ordinal
position (index) in its enum declaration; in particular
`VTX_BOUNDARY_NONE = 0`, ..., `FVAR_LINEAR_ALL = 5`, `CREASE_CHAIKIN = 1`,
`TRI_SUB_SMOOTH = 1`. -/
theorem enum_values_are_declaration_ordinals :
    (∀ v : VtxBoundaryInterpolation,
        VtxBoundaryInterpolation.declOrder.indexOf v = v.toNat) ∧
    (∀ v : FVarLinearInterpolation,
        FVarLinearInterpolation.declOrder.indexOf v = v.toNat) ∧
    (∀ v : CreasingMethod, CreasingMethod.declOrder.indexOf v = v.toNat) ∧
    (∀ v : TriangleSubdivision,
        TriangleSubdivision.declOrder.indexOf v = v.toNat) :=
  ⟨fun v1 => by cases v1 <;> rfl, fun v2 => by cases v2 <;> rfl,
   fun v3 => by cases v3 <;> rfl, fun v4 => by cases v4 <;> rfl⟩

/-- C10: on every instance, re-assigning a field the very value its getter
returns leaves the whole `Options` value unchanged (the stored value is
already within the bitfield's width, so the truncating assignment writes it
back verbatim); and setters of two distinct fields commute: applying them
in either order produces the same `Options` value. -/
theorem get_set_identity_and_setters_commute :
    (∀ o : Options,
        o.setVtxBoundInterpField o.GetVtxBoundaryInterpolation = o ∧
        o.setFVarLinInterpField o.GetFVarLinearInterpolation = o ∧
        o.setCreasingMethodField o.GetCreasingMethod = o ∧
        o.setTriangleSubField o.GetTriangleSubdivision = o) ∧
    (∀ (o : Options) (v : VtxBoundaryInterpolation)
        (w : FVarLinearInterpolation),
        (o.SetVtxBoundaryInterpolation v).SetFVarLinearInterpolation w
          = (o.SetFVarLinearInterpolation w).SetVtxBoundaryInterpolation v) ∧
    (∀ (o : Options) (v : VtxBoundaryInterpolation) (w : CreasingMethod),
        (o.SetVtxBoundaryInterpolation v).SetCreasingMethod w
          = (o.SetCreasingMethod w).SetVtxBoundaryInterpolation v) ∧
    (∀ (o : Options) (v : VtxBoundaryInterpolation) (w : TriangleSubdivision),
        (o.SetVtxBoundaryInterpolation v).SetTriangleSubdivision w
          = (o.SetTriangleSubdivision w).SetVtxBoundaryInterpolation v) ∧
    (∀ (o : Options) (v : FVarLinearInterpolation) (w : CreasingMethod),
        (o.SetFVarLinearInterpolation v).SetCreasingMethod w
          = (o.SetCreasingMethod w).SetFVarLinearInterpolation v) ∧
    (∀ (o : Options) (v : FVarLinearInterpolation) (w : TriangleSubdivision),
        (o.SetFVarLinearInterpolation v).SetTriangleSubdivision w
          = (o.SetTriangleSubdivision w).SetFVarLinearInterpolation v) ∧
    (∀ (o : Options) (v : CreasingMethod) (w : TriangleSubdivision),
        (o.SetCreasingMethod v).SetTriangleSubdivision w
          = (o.SetTriangleSubdivision w).SetCreasingMethod v) := by
  refine ⟨fun o => ?_, fun _o1 _v1 _w1 => rfl, fun _o2 _v2 _w2 => rfl,
          fun _o3 _v3 _w3 => rfl, fun _o4 _v4 _w4 => rfl, fun _o5 _v5 _w5 => rfl,
          fun _o6 _v6 _w6 => rfl⟩
  obtain ⟨a, b, c, d⟩ := o
  refine ⟨?ga, ?gb, ?gc, ?gd⟩ <;>
    simp [Options.setVtxBoundInterpField, Options.setFVarLinInterpField,
      Options.setCreasingMethodField, Options.setTriangleSubField,
      Options.GetVtxBoundaryInterpolation, Options.GetFVarLinearInterpolation,
      Options.GetCreasingMethod, Options.GetTriangleSubdivision,
      Fin.ext_iff, Nat.mod_eq_of_lt, Fin.is_lt]

end Sdc
